import Mathlib

/-!
Shallow embedding of the transaction-analysis engine
(`financial_stress_detector.py`, `life_event_detector.py`).

Transactions are records with day-granularity dates (modelled as `Int`
day numbers), decimal amounts (modelled as `Rat`), and string fields.
Pandas boolean-mask filters become `List.filter`, `sort_values` becomes
`List.mergeSort`, and `Series.str.contains(pat)` — which interprets the
joined keyword pattern as a regular expression — is modelled by
`containsPat`, where a `'.'` in a keyword matches any single character
(the only regex metacharacter occurring in the repository's keyword
lists).  The literal-substring reading used by the specification text is
modelled separately by `containsLit`.
-/

namespace Bank

/-- A transaction record: `date` is a day number, `amount` a signed
decimal (negative = outflow), `ttype` is the `type` column. -/
structure Txn where
  date : Int
  description : String
  amount : Rat
  category : String
  merchant : String
  ttype : String
  location : Option String := none
deriving DecidableEq

/-- Lower-case a string into its character list (models `str.lower()`). -/
def lowerStr (s : String) : List Char :=
  s.data.map Char.toLower

/-- Prefix match of a joined-keyword regex fragment against a character
list: a `'.'` in the pattern matches any single character, as in the
`re` module used by `Series.str.contains`. -/
def patMatchAt : List Char → List Char → Bool
  | [], _ => true
  | _ :: _, [] => false
  | p :: ps, c :: cs => (p == '.' || p == c) && patMatchAt ps cs

/-- Literal prefix match: every pattern character, `'.'` included, must
match itself.  This is the specification's substring reading. -/
def litMatchAt : List Char → List Char → Bool
  | [], _ => true
  | _ :: _, [] => false
  | p :: ps, c :: cs => (p == c) && litMatchAt ps cs

/-- `re.search` of a single alternation branch: the pattern matches at
some position of the string, `'.'` acting as a wildcard. -/
def containsPat : List Char → List Char → Bool
  | [], pat => patMatchAt pat []
  | c :: rest, pat => patMatchAt pat (c :: rest) || containsPat rest pat

/-- Literal substring containment (specification reading). -/
def containsLit : List Char → List Char → Bool
  | [], pat => litMatchAt pat []
  | c :: rest, pat => litMatchAt pat (c :: rest) || containsLit rest pat

/-- `description.str.lower().str.contains(k1|...|kn)`: some keyword
matches somewhere, with regex semantics. -/
def anyPat (d : List Char) (kws : List (List Char)) : Bool :=
  kws.any (fun k => containsPat d k)

/-- Specification reading of the same test: some keyword occurs as a
literal substring. -/
def anyLit (d : List Char) (kws : List (List Char)) : Bool :=
  kws.any (fun k => containsLit d k)

/-- Fee keywords of `detect_late_payment_fees`. -/
def feeKeywords : List (List Char) :=
  ["late payment".data, "late fee".data, "overdraft".data, "nsf".data,
   "insufficient funds".data, "returned payment".data]

/-- Payday-loan keywords of `detect_payday_loans`. -/
def paydayKeywords : List (List Char) :=
  ["cash advance".data, "payday".data, "quickcash".data, "fastcash".data,
   "advance america".data, "check into cash".data]

/-- Moving keywords of `detect_relocation`. -/
def movingKeywords : List (List Char) :=
  ["mover".data, "moving".data, "relocation".data, "truck rental".data,
   "u-haul".data, "pods".data]

/-- Utility-setup keywords of `detect_relocation`. -/
def utilityKeywords : List (List Char) :=
  ["setup".data, "activation".data, "new service".data, "installation".data]

/-- Travel keywords of `detect_travel`; note `booking.com` contains the
regex metacharacter `'.'`. -/
def travelKeywords : List (List Char) :=
  ["airline".data, "flight".data, "hotel".data, "resort".data, "hostel".data,
   "airbnb".data, "booking.com".data, "expedia".data, "travel insurance".data]

/-- Selection mask of `detect_late_payment_fees`:
`(type == 'fee') | description.lower().contains(fee pattern)`. -/
def feeSel (t : Txn) : Bool :=
  (t.ttype == "fee") || anyPat (lowerStr t.description) feeKeywords

/-- Selection mask of `detect_payday_loans`. -/
def paydaySel (t : Txn) : Bool :=
  anyPat (lowerStr t.description) paydayKeywords || (t.category == "Loan")

/-- Selection mask of the ATM filter in
`detect_frequent_small_withdrawals`:
`(type == 'withdrawal') | description.contains('ATM', case=False)`. -/
def atmSel (t : Txn) : Bool :=
  (t.ttype == "withdrawal") || containsPat (lowerStr t.description) "atm".data

/-- Selection mask of `detect_travel`. -/
def travelSel (t : Txn) : Bool :=
  anyPat (lowerStr t.description) travelKeywords || (t.category == "Travel")

/-- Selection mask for moving transactions in `detect_relocation`. -/
def movingSel (t : Txn) : Bool :=
  anyPat (lowerStr t.description) movingKeywords

/-- Threshold set built by `FinancialStressDetector._set_thresholds`. -/
structure Thresholds where
  smallWithdrawalThreshold : Rat
  smallWithdrawalCount : Nat
  smallWithdrawalDays : Int
  decliningBalanceMonths : Nat
  balanceDeclinePct : Rat
  highFeeThreshold : Rat
deriving DecidableEq

/-- `_set_thresholds`: base values, with the count and decline
percentage adjusted for `high` and `low` sensitivity; any other
sensitivity string keeps the base (medium) values. -/
def setThresholds (sensitivity : String) : Thresholds :=
  let base : Thresholds :=
    { smallWithdrawalThreshold := 60, smallWithdrawalCount := 6,
      smallWithdrawalDays := 14, decliningBalanceMonths := 2,
      balanceDeclinePct := 20, highFeeThreshold := 50 }
  if sensitivity == "high" then
    { base with smallWithdrawalCount := 4, balanceDeclinePct := 15 }
  else if sensitivity == "low" then
    { base with smallWithdrawalCount := 8, balanceDeclinePct := 30 }
  else base

/-- Severity levels assigned to stress indicators. -/
inductive Severity where
  | high
  | medium
  | low
deriving DecidableEq

/-- Kind-specific `details` payload of a stress indicator (the numeric
and identifying facts the Python dict carries). -/
inductive IndDetails where
  | fees (totalFees : Rat) (numFees overdraftFees latePaymentFees : Nat)
  | withdrawals (numWithdrawals : Nat) (totalAmount avgWithdrawal : Rat)
      (days : Int)
  | payday (merchant : String) (amount : Rat) (date : Int)
  | decline (earlyAvgBalance recentAvgBalance declinePercentage
      currentBalance : Rat)
deriving DecidableEq

/-- A stress indicator as produced by `FinancialStressDetector`. -/
structure Indicator where
  indicatorType : String
  severity : Severity
  dateStart : Int
  dateEnd : Int
  details : IndDetails
deriving DecidableEq

/-- Sum of the `amount` column. -/
def sumAmounts (l : List Txn) : Rat :=
  (l.map (fun t => t.amount)).sum

/-- Mean of the `amount` column (`Rat` division, `x / 0 = 0`; every use
in the detectors is on a nonempty selection). -/
def meanAmounts (l : List Txn) : Rat :=
  sumAmounts l / (l.length : Rat)

/-- `date.min()` over a selection (default irrelevant: used only on
nonempty selections). -/
def minDate (l : List Txn) : Int :=
  ((l.map (fun t => t.date)).min?).getD 0

/-- `date.max()` over a selection. -/
def maxDate (l : List Txn) : Int :=
  ((l.map (fun t => t.date)).max?).getD 0

/-- Python `round(x, 2)`: round half to even at two decimals. -/
def round2 (x : Rat) : Rat :=
  let y := x * 100
  let f := y.floor
  let r := y - (f : Rat)
  let n : Int :=
    if r < 1/2 then f
    else if 1/2 < r then f + 1
    else if f % 2 = 0 then f else f + 1
  (n : Rat) / 100

/-- `sort_values('date')`, modelled as a (stable) insertion sort on the
date key; all observable outputs of the detectors depend only on the
date ordering, not on the tie order. -/
def sortByDate (l : List Txn) : List Txn :=
  l.insertionSort (fun a b => a.date ≤ b.date)

/-- The fee-transaction selection of `detect_late_payment_fees`. -/
def feeTxnsOf (df : List Txn) : List Txn :=
  df.filter feeSel

/-- `abs(fee_txns['amount'].sum())`. -/
def totalFeesOf (df : List Txn) : Rat :=
  |sumAmounts (feeTxnsOf df)|

/-- The single aggregated indicator built when at least one fee
transaction matched: severity starts `low`, becomes `medium` when the
total exceeds the high-fee threshold, and becomes `high` when at least
three transactions matched — in that order, so the count rule wins. -/
def mkFeeIndicator (cfg : Thresholds) (df : List Txn) : Indicator :=
  let fees := feeTxnsOf df
  let total := totalFeesOf df
  let overdraftCnt :=
    (fees.filter (fun t =>
      containsPat (lowerStr t.description) "overdraft".data)).length
  let lateCnt :=
    (fees.filter (fun t =>
      containsPat (lowerStr t.description) "late".data)).length
  let sev0 := Severity.low
  let sev1 := if cfg.highFeeThreshold < total then Severity.medium else sev0
  let sev2 := if 3 ≤ fees.length then Severity.high else sev1
  { indicatorType := "late_payment_fees", severity := sev2,
    dateStart := minDate fees, dateEnd := maxDate fees,
    details := IndDetails.fees (round2 total) fees.length overdraftCnt lateCnt }

/-- `detect_late_payment_fees`. -/
def detectLatePaymentFees (cfg : Thresholds) (df : List Txn) : List Indicator :=
  if 0 < (feeTxnsOf df).length then [mkFeeIndicator cfg df] else []

/-- `detect_payday_loans` emits one `high`-severity indicator per
matching transaction, in row order. -/
def mkPaydayIndicator (t : Txn) : Indicator :=
  { indicatorType := "payday_loan", severity := Severity.high,
    dateStart := t.date, dateEnd := t.date,
    details := IndDetails.payday t.merchant t.amount t.date }

/-- `detect_payday_loans`. -/
def detectPaydayLoans (df : List Txn) : List Indicator :=
  (df.filter paydaySel).map mkPaydayIndicator

/-- The small-withdrawal population of
`detect_frequent_small_withdrawals`: ATM-selected rows whose absolute
amount is strictly below the ceiling. -/
def smallWithdrawalsOf (cfg : Thresholds) (df : List Txn) : List Txn :=
  (df.filter atmSel).filter
    (fun t => decide (|t.amount| < cfg.smallWithdrawalThreshold))

/-- The date-sorted small-withdrawal list the anchor loop iterates. -/
def sortedSW (cfg : Thresholds) (df : List Txn) : List Txn :=
  sortByDate (smallWithdrawalsOf cfg df)

/-- Rows of the sorted population inside the inclusive window
`[anchor.date, anchor.date + small_withdrawal_days]`. -/
def windowTxns (cfg : Thresholds) (df : List Txn) (anchor : Txn) : List Txn :=
  (sortedSW cfg df).filter
    (fun u => decide (anchor.date ≤ u.date) &&
      decide (u.date ≤ anchor.date + cfg.smallWithdrawalDays))

/-- Whether an anchor's window holds at least the minimum count. -/
def qualifies (cfg : Thresholds) (df : List Txn) (anchor : Txn) : Bool :=
  cfg.smallWithdrawalCount ≤ (windowTxns cfg df anchor).length

/-- Indicator built for the first qualifying window: severity `medium`,
escalated to `high` at a count of 10 or more. -/
def mkSWIndicator (cfg : Thresholds) (df : List Txn) (anchor : Txn) :
    Indicator :=
  let w := windowTxns cfg df anchor
  let total := |sumAmounts w|
  let avg := |meanAmounts w|
  { indicatorType := "frequent_small_withdrawals",
    severity := if 10 ≤ w.length then Severity.high else Severity.medium,
    dateStart := anchor.date,
    dateEnd := anchor.date + cfg.smallWithdrawalDays,
    details := IndDetails.withdrawals w.length (round2 total) (round2 avg)
      cfg.smallWithdrawalDays }

/-- `detect_frequent_small_withdrawals`: scan anchors in date order,
report the first qualifying window, then stop (`break`). -/
def detectFrequentSmallWithdrawals (cfg : Thresholds) (df : List Txn) :
    List Indicator :=
  match (sortedSW cfg df).find? (fun t => qualifies cfg df t) with
  | some anchor => [mkSWIndicator cfg df anchor]
  | none => []

/-- Running balances of `calculate_running_balance`: sort by date,
cumulative sum of amounts, plus the hardcoded $5000 start. -/
def balancesAux : Rat → List Txn → List (Txn × Rat)
  | _, [] => []
  | acc, t :: rest =>
    let b := acc + t.amount
    (t, b) :: balancesAux b rest

/-- Pairs each date-sorted transaction with its running balance. -/
def runningBalances (df : List Txn) : List (Txn × Rat) :=
  balancesAux 5000 (sortByDate df)

/-- `(date.max() - date.min()).days`. -/
def spanDays (df : List Txn) : Int :=
  maxDate df - minDate df

/-- `date.min() + timedelta(days=days_total // 2)` (the span is
non-negative wherever this is used, so floor division on `Nat` agrees
with Python's `//`). -/
def midPoint (df : List Txn) : Int :=
  minDate df + ((spanDays df).toNat / 2 : Nat)

/-- Mean running balance of rows dated at or before the midpoint. -/
def earlyMean (df : List Txn) : Rat :=
  let early := (runningBalances df).filter
    (fun p => decide (p.1.date ≤ midPoint df))
  ((early.map (fun p => p.2)).sum) / (early.length : Rat)

/-- Mean running balance of rows dated after the midpoint. -/
def lateMean (df : List Txn) : Rat :=
  let late := (runningBalances df).filter
    (fun p => decide (midPoint df < p.1.date))
  ((late.map (fun p => p.2)).sum) / (late.length : Rat)

/-- Balance of the last date-sorted row (`balance.iloc[-1]`). -/
def lastBalance (df : List Txn) : Rat :=
  (((runningBalances df).map (fun p => p.2)).getLast?).getD 0

/-- Decline percentage with all of `detect_declining_balance`'s guards:
`none` when there are 30 or fewer rows, the date span is under 60 days,
or the early mean is not strictly positive — so the division by the
early mean happens only under the positivity guard. -/
def declinePct (df : List Txn) : Option Rat :=
  if 30 < df.length then
    if 60 ≤ spanDays df then
      if 0 < earlyMean df then
        some ((earlyMean df - lateMean df) / earlyMean df * 100)
      else none
    else none
  else none

/-- Severity assignment of the declining-balance indicator: starts
`medium`, `high` when the percentage exceeds 40, else `low` when it is
below 25 (the `if`/`elif` sequence of the source). -/
def declineSeverity (pct : Rat) : Severity :=
  if 40 < pct then Severity.high
  else if pct < 25 then Severity.low
  else Severity.medium

/-- Indicator built when the decline percentage exceeds the threshold. -/
def mkDeclineIndicator (df : List Txn) (pct : Rat) : Indicator :=
  { indicatorType := "declining_balance",
    severity := declineSeverity pct,
    dateStart := minDate df, dateEnd := maxDate df,
    details := IndDetails.decline (round2 (earlyMean df))
      (round2 (lateMean df)) (round2 pct) (round2 (lastBalance df)) }

/-- `detect_declining_balance`. -/
def detectDecliningBalance (cfg : Thresholds) (df : List Txn) :
    List Indicator :=
  match declinePct df with
  | some pct =>
    if cfg.balanceDeclinePct < pct then [mkDeclineIndicator df pct] else []
  | none => []

/-- Rank used by `analyze`'s severity sort
(`{'high': 0, 'medium': 1, 'low': 2}`). -/
def severityRank : Severity → Nat
  | Severity.high => 0
  | Severity.medium => 1
  | Severity.low => 2

/-- `FinancialStressDetector.analyze` as a function of the threshold
configuration and the transaction snapshot: run the four detectors,
concatenate, stable-sort by severity rank. -/
def stressAnalyzeList (cfg : Thresholds) (df : List Txn) : List Indicator :=
  let allInds :=
    detectLatePaymentFees cfg df ++ detectFrequentSmallWithdrawals cfg df ++
    detectPaydayLoans df ++ detectDecliningBalance cfg df
  allInds.insertionSort
    (fun a b => severityRank a.severity ≤ severityRank b.severity)

/-- `get_risk_score` contributions: 30 per high, 15 per medium, 5 per
anything else (only `low` exists). -/
def indicatorScore : Severity → Nat
  | Severity.high => 30
  | Severity.medium => 15
  | Severity.low => 5

/-- `get_risk_score` over a result list: 0 when empty, otherwise the
capped sum. -/
def getRiskScore (inds : List Indicator) : Nat :=
  match inds with
  | [] => 0
  | _ => min ((inds.map (fun i => indicatorScore i.severity)).sum) 100

/-- A `FinancialStressDetector` instance: sensitivity and thresholds
fixed at construction, plus the mutable last-results cache. -/
structure StressState where
  sensitivity : String
  thresholds : Thresholds
  stressIndicators : List Indicator
deriving DecidableEq

/-- Stateful `analyze`: returns the result list and the instance with
its cache replaced by that list. -/
def stressAnalyze (s : StressState) (df : List Txn) :
    List Indicator × StressState :=
  let res := stressAnalyzeList s.thresholds df
  (res, { s with stressIndicators := res })

/-- Kind-specific `details` payload of a life event. -/
inductive EvDetails where
  | jobChange (newEmployer previousEmployer : String)
      (firstPaymentDate : Int) (incomeChange : Option Rat)
  | relocation (movingCharge : Rat) (movingCompany : String)
      (securityDepositsFound utilitySetupsFound : Nat)
  | travel (startDate endDate durationDays : Int) (totalSpent : Rat)
      (numTransactions : Nat) (destination : Option String)
      (merchants : Option (List String))
deriving DecidableEq

/-- A life event as produced by `LifeEventDetector`. -/
structure Event where
  eventType : String
  date : Int
  confidence : Rat
  details : EvDetails
deriving DecidableEq

/-- First-occurrence deduplication, as `Series.unique()` on the
merchant column. -/
def dedupFirst (l : List String) : List String :=
  l.foldl (fun acc m => if m ∈ acc then acc else acc ++ [m]) []

/-- Income rows of `detect_job_change`: deposits categorised Income. -/
def incomeOf (df : List Txn) : List Txn :=
  (df.filter (fun t => t.ttype == "deposit")).filter
    (fun t => t.category == "Income")

/-- Distinct employers in first-occurrence order. -/
def employersOf (df : List Txn) : List String :=
  dedupFirst ((incomeOf df).map (fun t => t.merchant))

/-- Rows of one employer. -/
def merchantTxns (income : List Txn) (m : String) : List Txn :=
  income.filter (fun t => t.merchant == m)

/-- `_calculate_income_change`: percentage change of mean amounts,
`none` when either mean is zero (Python falsiness guard). -/
def incomeChange (income : List Txn) (oldM newM : String) : Option Rat :=
  let oldAvg := meanAmounts (merchantTxns income oldM)
  let newAvg := meanAmounts (merchantTxns income newM)
  if oldAvg ≠ 0 ∧ newAvg ≠ 0 then
    some (round2 ((newAvg - oldAvg) / oldAvg * 100))
  else none

/-- Event built for the transition from employer `prev` to `cur`:
dated at `cur`'s earliest payment, fixed confidence 0.85. -/
def mkJobEvent (income : List Txn) (prev cur : String) : Event :=
  { eventType := "job_change",
    date := minDate (merchantTxns income cur),
    confidence := 85/100,
    details := EvDetails.jobChange cur prev
      (minDate (merchantTxns income cur)) (incomeChange income prev cur) }

/-- `detect_job_change`: one event per adjacent pair of distinct
employers, emitted only when more than one employer exists. -/
def detectJobChange (df : List Txn) : List Event :=
  if 1 < (employersOf df).length then
    ((employersOf df).zip (employersOf df).tail).map
      (fun p => mkJobEvent (incomeOf df) p.1 p.2)
  else []

/-- Relocation event for one moving-keyword transaction: the evidence
window is `[date - 7, date + 30]`; confidence 0.6, +0.2 for a security
deposit, +0.15 for a utility setup, capped at 0.95. -/
def mkRelocEvent (df : List Txn) (t : Txn) : Event :=
  let ws := t.date - 7
  let we := t.date + 30
  let wdf := df.filter
    (fun u => decide (ws ≤ u.date) && decide (u.date ≤ we))
  let secDeps := wdf.filter
    (fun u => containsPat (lowerStr u.description) "deposit".data &&
      decide (u.amount < -1000))
  let utilSetups := wdf.filter
    (fun u => anyPat (lowerStr u.description) utilityKeywords)
  let conf0 : Rat := 6/10
  let conf1 := if 0 < secDeps.length then conf0 + 2/10 else conf0
  let conf2 := if 0 < utilSetups.length then conf1 + 15/100 else conf1
  { eventType := "relocation", date := t.date,
    confidence := min conf2 (95/100),
    details := EvDetails.relocation t.amount t.merchant secDeps.length
      utilSetups.length }

/-- `detect_relocation`: one event per moving-keyword transaction, in
row order, no deduplication. -/
def detectRelocation (df : List Txn) : List Event :=
  (df.filter movingSel).map (mkRelocEvent df)

/-- Gap-mode clustering of `detect_travel`: a transaction joins the
current trip iff its gap from the trip's last transaction is at most 30
days, else it closes the trip and starts a new one. -/
def gapClusterAux : List Txn → List Txn → List (List Txn) →
    List (List Txn)
  | [], cur, trips => trips ++ [cur]
  | t :: rest, cur, trips =>
    match cur.getLast? with
    | some lastT =>
      if t.date - lastT.date ≤ 30 then gapClusterAux rest (cur ++ [t]) trips
      else gapClusterAux rest [t] (trips ++ [cur])
    | none => gapClusterAux rest [t] trips

/-- Trips of a date-sorted travel selection. -/
def gapCluster : List Txn → List (List Txn)
  | [] => []
  | t :: rest => gapClusterAux rest [t] []

/-- Travel event for one trip: confidence 0.7, +0.2 for a (truthy)
destination, +0.1 when total spend exceeds $500, capped at 0.95; first
three distinct merchants retained. -/
def mkTravelEvent (trip : List Txn) : Event :=
  let total := |sumAmounts trip|
  let sd := minDate trip
  let ed := maxDate trip
  let dest := (trip.filterMap (fun t => t.location)).head?
  let destTruthy : Bool := match dest with
    | some s => s != ""
    | none => false
  let conf0 : Rat := 7/10
  let conf1 := if destTruthy then conf0 + 2/10 else conf0
  let conf2 := if (500 : Rat) < total then conf1 + 1/10 else conf1
  let merchants := dedupFirst (trip.map (fun t => t.merchant))
  { eventType := "travel", date := sd,
    confidence := min conf2 (95/100),
    details := EvDetails.travel sd ed (ed - sd) (round2 total) trip.length
      dest (if 0 < merchants.length then some (merchants.take 3) else none) }

/-- `detect_travel`: select, sort by date, cluster by 30-day gaps, one
event per trip. -/
def detectTravel (df : List Txn) : List Event :=
  (gapCluster (sortByDate (df.filter travelSel))).map mkTravelEvent

/-- `LifeEventDetector.analyze` as a function of the snapshot: run the
three detectors, concatenate, stable-sort by date. -/
def lifeAnalyzeList (df : List Txn) : List Event :=
  let allEvents := detectJobChange df ++ detectRelocation df ++ detectTravel df
  allEvents.insertionSort (fun a b => a.date ≤ b.date)

/-- A `LifeEventDetector` instance: sensitivity (unused by the
detectors) and the mutable last-results cache. -/
structure LifeState where
  sensitivity : String
  events : List Event
deriving DecidableEq

/-- Stateful life-event `analyze`. -/
def lifeAnalyze (s : LifeState) (df : List Txn) : List Event × LifeState :=
  let res := lifeAnalyzeList df
  (res, { s with events := res })

/-- Number of indicators carrying a given severity. -/
def countSev (s : Severity) (inds : List Indicator) : Nat :=
  (inds.filter (fun i => decide (i.severity = s))).length

attribute [local semireducible] Rat.mul Rat.add Rat.sub Rat.inv

set_option maxRecDepth 8000

lemma countSev_cons (s : Severity) (x : Indicator) (xs : List Indicator) :
    countSev s (x :: xs) =
      (if x.severity = s then 1 else 0) + countSev s xs := by
  simp only [countSev, List.filter_cons]
  split_ifs with h1 h2 h3 <;> simp_all
  omega

lemma indicatorScore_sum (inds : List Indicator) :
    (inds.map (fun i => indicatorScore i.severity)).sum =
      30 * countSev Severity.high inds +
      15 * countSev Severity.medium inds +
      5 * countSev Severity.low inds := by
  induction inds with
  | nil => simp [countSev]
  | cons x xs ih =>
    have h : ((x :: xs).map (fun i => indicatorScore i.severity)).sum =
        indicatorScore x.severity +
        (xs.map (fun i => indicatorScore i.severity)).sum := by
      simp
    rw [h, ih, countSev_cons, countSev_cons, countSev_cons]
    rcases hx : x.severity <;> simp [hx, indicatorScore] <;> omega

/-- C1: for every result list (those of `analyze` included), the risk
score is the sum of 30 per high, 15 per medium and 5 per low indicator,
capped at 100, and therefore always lies between 0 and 100 (the lower
bound holds because the score is a natural number). -/
theorem C1_risk_score_formula (inds : List Indicator) :
    getRiskScore inds =
      min (30 * countSev Severity.high inds +
        15 * countSev Severity.medium inds +
        5 * countSev Severity.low inds) 100 ∧
    getRiskScore inds ≤ 100 := by
  constructor
  · cases inds with
    | nil => simp [getRiskScore, countSev]
    | cons x xs =>
      have h : getRiskScore (x :: xs) =
          min (((x :: xs).map (fun i => indicatorScore i.severity)).sum) 100 :=
        rfl
      rw [h, indicatorScore_sum]
  · cases inds with
    | nil => simp [getRiskScore]
    | cons x xs =>
      have h : getRiskScore (x :: xs) =
          min (((x :: xs).map (fun i => indicatorScore i.severity)).sum) 100 :=
        rfl
      rw [h]
      exact Nat.min_le_right _ _

/-- A transaction whose lower-cased description matches the travel
keyword `booking.com` only through the regex wildcard: the character
at the dot position is an `x`, so no keyword occurs as a literal
substring. -/
def wildcardTxn : Txn :=
  { date := 0, description := "BookingXcom", amount := -100,
    category := "Misc", merchant := "X", ttype := "purchase" }

/-- C2 is false as stated: the travel selection accepts `wildcardTxn`
although no travel keyword is a literal substring of its lower-cased
description and its category is not `Travel` — `str.contains` treats
the joined keyword pattern as a regular expression, so the `'.'` in
`booking.com` matches any character. -/
theorem C2_substring_claim_counterexample :
    travelSel wildcardTxn = true ∧
    (anyLit (lowerStr wildcardTxn.description) travelKeywords ||
      (wildcardTxn.category == "Travel")) = false := by
  constructor <;> decide

lemma patMatchAt_eq_litMatchAt :
    ∀ p : List Char, '.' ∉ p → ∀ s, patMatchAt p s = litMatchAt p s := by
  intro p
  induction p with
  | nil =>
    intro _ s
    cases s <;> rfl
  | cons a ps ih =>
    intro hp s
    have ha : (a == '.') = false := by
      refine beq_eq_false_iff_ne.mpr fun h => hp ?_
      rw [← h]
      exact List.mem_cons_self a ps
    have hps : '.' ∉ ps := fun h => hp (List.mem_cons_of_mem a h)
    cases s with
    | nil => rfl
    | cons c cs => simp [patMatchAt, litMatchAt, ha, ih hps]

lemma containsPat_eq_containsLit (d k : List Char) (hk : '.' ∉ k) :
    containsPat d k = containsLit d k := by
  induction d with
  | nil => simp [containsPat, containsLit, patMatchAt_eq_litMatchAt k hk]
  | cons c rest ih =>
    simp [containsPat, containsLit, patMatchAt_eq_litMatchAt k hk, ih]

lemma anyPat_eq_anyLit (d : List Char) (kws : List (List Char))
    (h : ∀ k ∈ kws, '.' ∉ k) : anyPat d kws = anyLit d kws := by
  unfold anyPat anyLit
  induction kws with
  | nil => rfl
  | cons k ks ih =>
    simp only [List.any_cons,
      containsPat_eq_containsLit d k (h k (List.mem_cons_self k ks)),
      ih (fun k2 hk2 => h k2 (List.mem_cons_of_mem k hk2))]

/-- C2 (amended): keyword selection follows the regex semantics of
`str.contains` on the OR-joined pattern.  For every keyword free of the
`'.'` metacharacter — all fee, payday, moving and utility-setup
keywords — this coincides with case-insensitive literal substring
containment, OR-combined with the exact category/type matches; the
travel set contains `booking.com`, whose `'.'` matches any single
character, so travel selection is regex containment, not literal. -/
theorem C2_keyword_matching_amended :
    (∀ d k,
      k ∈ feeKeywords ++ paydayKeywords ++ movingKeywords ++ utilityKeywords →
      containsPat d k = containsLit d k) ∧
    (∀ t, feeSel t =
      ((t.ttype == "fee") || anyLit (lowerStr t.description) feeKeywords)) ∧
    (∀ t, paydaySel t =
      (anyLit (lowerStr t.description) paydayKeywords ||
        (t.category == "Loan"))) ∧
    (∀ t, movingSel t = anyLit (lowerStr t.description) movingKeywords) ∧
    (∀ t, travelSel t =
      (anyPat (lowerStr t.description) travelKeywords ||
        (t.category == "Travel"))) := by
  have hfee : ∀ k ∈ feeKeywords, '.' ∉ k := by decide
  have hpay : ∀ k ∈ paydayKeywords, '.' ∉ k := by decide
  have hmov : ∀ k ∈ movingKeywords, '.' ∉ k := by decide
  have hutil : ∀ k ∈ utilityKeywords, '.' ∉ k := by decide
  refine ⟨?_, ?_, ?_, ?_, fun t => rfl⟩
  · intro d k hk
    refine containsPat_eq_containsLit d k ?_
    rcases List.mem_append.mp hk with hk1 | hk2
    · rcases List.mem_append.mp hk1 with hk3 | hk4
      · rcases List.mem_append.mp hk3 with hk5 | hk6
        · exact hfee k hk5
        · exact hpay k hk6
      · exact hmov k hk4
    · exact hutil k hk2
  · intro t
    unfold feeSel
    rw [anyPat_eq_anyLit _ _ hfee]
  · intro t
    unfold paydaySel
    rw [anyPat_eq_anyLit _ _ hpay]
  · intro t
    unfold movingSel
    rw [anyPat_eq_anyLit _ _ hmov]

/-- Witness for the amended C2 at a concrete description and keyword. -/
theorem C2_keyword_matching_amended_witness :
    containsPat "overdraft fee charged".data "overdraft".data =
      containsLit "overdraft fee charged".data "overdraft".data :=
  C2_keyword_matching_amended.1 "overdraft fee charged".data
    "overdraft".data (by decide)

/-- C3: whenever at least one transaction matches the fee selection,
exactly one `late_payment_fees` indicator is emitted, and its severity
is the result of applying the amount rule and then the count rule: the
count rule (`≥ 3` matches gives `high`) overrides the amount rule
(total above the threshold gives `medium`), with `low` the default. -/
theorem C3_fee_indicator_severity (cfg : Thresholds) (df : List Txn)
    (h : 0 < (feeTxnsOf df).length) :
    detectLatePaymentFees cfg df = [mkFeeIndicator cfg df] ∧
    (mkFeeIndicator cfg df).severity =
      (if 3 ≤ (feeTxnsOf df).length then Severity.high
       else if cfg.highFeeThreshold < totalFeesOf df then Severity.medium
       else Severity.low) := by
  refine ⟨?_, rfl⟩
  simp [detectLatePaymentFees, h]

/-- A fee transaction of Scenario A. -/
def feeTxnA (d : Int) : Txn :=
  { date := d, description := "late payment fee", amount := -30,
    category := "Fees", merchant := "Bank", ttype := "fee" }

/-- Scenario A: three fee transactions totaling $90. -/
def scenarioA : List Txn := [feeTxnA 0, feeTxnA 5, feeTxnA 10]

/-- Witness for C3 at Scenario A: three $90 fee transactions at medium
sensitivity produce one indicator with severity `high` (the count rule
overrides the $50 amount rule). -/
theorem C3_fee_indicator_severity_witness :
    0 < (feeTxnsOf scenarioA).length ∧
    detectLatePaymentFees (setThresholds "medium") scenarioA =
      [mkFeeIndicator (setThresholds "medium") scenarioA] ∧
    (mkFeeIndicator (setThresholds "medium") scenarioA).severity =
      Severity.high ∧
    totalFeesOf scenarioA = 90 := by
  have hthm :=
    C3_fee_indicator_severity (setThresholds "medium") scenarioA (by decide)
  refine ⟨by decide, hthm.1, ?_, by decide⟩
  rw [hthm.2]
  decide

lemma find?_append_first {α : Type} (p : α → Bool) (l1 l2 : List α) (a : α)
    (h1 : ∀ x ∈ l1, p x = false) (ha : p a = true) :
    (l1 ++ a :: l2).find? p = some a := by
  induction l1 with
  | nil => simp [List.find?_cons, ha]
  | cons x xs ih =>
    have hx : p x = false := h1 x (List.mem_cons_self x xs)
    simp only [List.cons_append, List.find?_cons, hx]
    exact ih (fun y hy => h1 y (List.mem_cons_of_mem x hy))

/-- C4: the small-withdrawal detector emits at most one indicator; it
reports exactly the first anchor (in ascending date order) whose
inclusive window reaches the minimum count; and a window whose count
exactly equals the configured minimum qualifies (`≥`, not `>`). -/
theorem C4_first_qualifying_window :
    (∀ cfg df, (detectFrequentSmallWithdrawals cfg df).length ≤ 1) ∧
    (∀ cfg df l1 anchor l2,
      sortedSW cfg df = l1 ++ anchor :: l2 →
      (∀ u ∈ l1, qualifies cfg df u = false) →
      qualifies cfg df anchor = true →
      detectFrequentSmallWithdrawals cfg df =
        [mkSWIndicator cfg df anchor]) ∧
    (∀ cfg df anchor,
      (windowTxns cfg df anchor).length = cfg.smallWithdrawalCount →
      qualifies cfg df anchor = true) := by
  refine ⟨?_, ?_, ?_⟩
  · intro cfg df
    unfold detectFrequentSmallWithdrawals
    cases h : (sortedSW cfg df).find? (fun t => qualifies cfg df t) <;> simp
  · intro cfg df l1 anchor l2 hsplit h1 ha
    unfold detectFrequentSmallWithdrawals
    rw [hsplit, find?_append_first _ l1 l2 anchor h1 ha]
  · intro cfg df anchor h
    simp [qualifies, h]

/-- A small ATM withdrawal used in the C4 witness. -/
def swTxn (d : Int) : Txn :=
  { date := d, description := "ATM withdrawal", amount := -20,
    category := "Cash", merchant := "ATM", ttype := "withdrawal" }

/-- Six small withdrawals within six days: exactly the medium minimum
count inside one 14-day window. -/
def scenarioD : List Txn :=
  [swTxn 0, swTxn 1, swTxn 2, swTxn 3, swTxn 4, swTxn 5]

/-- Witness for C4: six withdrawals (count = configured minimum 6)
trigger, and the first anchor's window is the one reported. -/
theorem C4_first_qualifying_window_witness :
    qualifies (setThresholds "medium") scenarioD (swTxn 0) = true ∧
    detectFrequentSmallWithdrawals (setThresholds "medium") scenarioD =
      [mkSWIndicator (setThresholds "medium") scenarioD (swTxn 0)] := by
  refine ⟨C4_first_qualifying_window.2.2 _ _ _ (by decide), ?_⟩
  exact C4_first_qualifying_window.2.1 (setThresholds "medium") scenarioD []
    (swTxn 0) [swTxn 1, swTxn 2, swTxn 3, swTxn 4, swTxn 5] (by decide)
    (by intro u hu; exact absurd hu (List.not_mem_nil u)) (by decide)

/-- C5: whenever a declining-balance indicator is emitted for decline
percentage `pct`, its severity follows the stated check sequence —
`high` if `pct > 40`, else `low` if `pct < 25`, else `medium` — so a
triggering percentage strictly between the medium trigger threshold
(20) and 25 yields `low`. -/
theorem C5_decline_severity_order (cfg : Thresholds) (df : List Txn)
    (pct : Rat) (hp : declinePct df = some pct)
    (ht : cfg.balanceDeclinePct < pct) :
    detectDecliningBalance cfg df = [mkDeclineIndicator df pct] ∧
    (mkDeclineIndicator df pct).severity =
      (if 40 < pct then Severity.high
       else if pct < 25 then Severity.low
       else Severity.medium) ∧
    (pct < 25 → (mkDeclineIndicator df pct).severity = Severity.low) ∧
    (setThresholds "medium").balanceDeclinePct = 20 := by
  refine ⟨?_, rfl, ?_, rfl⟩
  · simp [detectDecliningBalance, hp, ht]
  · intro h25
    have h40 : ¬ 40 < pct := by
      intro h40
      linarith
    simp [mkDeclineIndicator, declineSeverity, h40, h25]

/-- A transaction for the C5/C6 balance scenarios. -/
def declineTxn (d : Int) (a : Rat) : Txn :=
  { date := d, description := "x", amount := a,
    category := "Misc", merchant := "M", ttype := "purchase" }

/-- 32 transactions spanning 62 days: the early-half mean balance is
5000, the late-half mean is 3900, a 22% decline. -/
def declineDf : List Txn :=
  ((List.range 16).map (fun i => declineTxn (2 * i) 0)) ++
  [declineTxn 32 (-1100)] ++
  ((List.range 15).map (fun i => declineTxn (34 + 2 * i) 0))

/-- Witness for C5: a 22% decline at medium sensitivity (threshold 20)
emits one indicator with severity `low` (22 is between 20 and 25). -/
theorem C5_decline_severity_order_witness :
    declinePct declineDf = some 22 ∧
    detectDecliningBalance (setThresholds "medium") declineDf =
      [mkDeclineIndicator declineDf 22] ∧
    (mkDeclineIndicator declineDf 22).severity = Severity.low := by
  have hthm := C5_decline_severity_order (setThresholds "medium") declineDf 22
    (by decide) (by decide)
  exact ⟨by decide, hthm.1, hthm.2.2.1 (by decide)⟩

/-- C6: with fewer than 31 records, a span under 60 days, or a
non-positive early-half mean, the declining-balance detector produces
nothing and the decline percentage stays undefined; conversely a
defined percentage certifies that every guard, the positive-denominator
guard included, held. -/
theorem C6_decline_guard (cfg : Thresholds) (df : List Txn)
    (h : df.length < 31 ∨ spanDays df < 60 ∨ earlyMean df ≤ 0) :
    declinePct df = none ∧
    detectDecliningBalance cfg df = [] ∧
    (∀ df2 pct, declinePct df2 = some pct →
      30 < df2.length ∧ 60 ≤ spanDays df2 ∧ 0 < earlyMean df2) := by
  have hnone : declinePct df = none := by
    unfold declinePct
    split_ifs with h1 h2 h3
    · rcases h with h | h | h
      · omega
      · exact absurd h2 (not_le.mpr h)
      · exact absurd h3 (not_lt.mpr h)
    · rfl
    · rfl
    · rfl
  refine ⟨hnone, ?_, ?_⟩
  · simp [detectDecliningBalance, hnone]
  · intro df2 pct hp
    unfold declinePct at hp
    split_ifs at hp with h1 h2 h3
    exact ⟨h1, h2, h3⟩

/-- Witness for C6 at the empty record list. -/
theorem C6_decline_guard_witness :
    declinePct [] = none ∧
    detectDecliningBalance (setThresholds "medium") [] = [] := by
  have hthm := C6_decline_guard (setThresholds "medium") []
    (Or.inl (by decide))
  exact ⟨hthm.1, hthm.2.1⟩

/-- C7: with `n` distinct Income-deposit merchants (first-occurrence
order), the job-change detector emits exactly `n - 1` events (so none
when `n ≤ 1`); every event carries confidence exactly 0.85 and is
dated at the new employer's earliest payment. -/
theorem C7_job_change_events (df : List Txn) :
    (detectJobChange df).length = (employersOf df).length - 1 ∧
    (∀ e ∈ detectJobChange df,
      e.confidence = 85/100 ∧
      ∃ prev cur, prev ∈ employersOf df ∧ cur ∈ employersOf df ∧
        e.date = minDate (merchantTxns (incomeOf df) cur) ∧
        e.details = EvDetails.jobChange cur prev
          (minDate (merchantTxns (incomeOf df) cur))
          (incomeChange (incomeOf df) prev cur)) := by
  constructor
  · unfold detectJobChange
    by_cases h : 1 < (employersOf df).length
    · rw [if_pos h]
      simp only [List.length_map, List.length_zip, List.length_tail]
      omega
    · rw [if_neg h]
      simp only [List.length_nil]
      omega
  · intro e he
    unfold detectJobChange at he
    by_cases h : 1 < (employersOf df).length
    · rw [if_pos h] at he
      obtain ⟨p, hp, rfl⟩ := List.mem_map.mp he
      have hmem := List.of_mem_zip hp
      exact ⟨rfl, p.1, p.2, hmem.1, List.mem_of_mem_tail hmem.2, rfl, rfl⟩
    · rw [if_neg h] at he
      exact absurd he (List.not_mem_nil e)

/-- An Income deposit used in Scenario B. -/
def incTxn (m : String) (d : Int) : Txn :=
  { date := d, description := "payroll", amount := 3000,
    category := "Income", merchant := m, ttype := "deposit" }

/-- Scenario B: three deposits from EmployerA then two from EmployerB. -/
def scenarioB : List Txn :=
  [incTxn "EmployerA" 0, incTxn "EmployerA" 14, incTxn "EmployerA" 28,
   incTxn "EmployerB" 42, incTxn "EmployerB" 56]

/-- Witness for C7 at Scenario B: exactly one job-change event, dated
at EmployerB's first payment, confidence exactly 0.85. -/
theorem C7_job_change_events_witness :
    (detectJobChange scenarioB).length = (employersOf scenarioB).length - 1 ∧
    employersOf scenarioB = ["EmployerA", "EmployerB"] ∧
    (detectJobChange scenarioB).length = 1 ∧
    (mkJobEvent (incomeOf scenarioB) "EmployerA" "EmployerB").confidence =
      85/100 ∧
    (mkJobEvent (incomeOf scenarioB) "EmployerA" "EmployerB").date = 42 := by
  refine ⟨(C7_job_change_events scenarioB).1, by decide, by decide, ?_, by decide⟩
  exact ((C7_job_change_events scenarioB).2
    (mkJobEvent (incomeOf scenarioB) "EmployerA" "EmployerB") (by decide)).1

/-- C8: each `analyze` is a pure function of the snapshot and the
configured thresholds — re-running `analyze` on the instance returned
by a first call yields a value-equal result list, and two instances
agreeing on thresholds (whatever their caches hold) produce identical
output; the life-event detector's output does not depend on the
instance at all. -/
theorem C8_analyze_deterministic (df : List Txn) :
    (∀ s : StressState,
      (stressAnalyze s df).1 = (stressAnalyze (stressAnalyze s df).2 df).1) ∧
    (∀ s s2 : StressState, s.thresholds = s2.thresholds →
      (stressAnalyze s df).1 = (stressAnalyze s2 df).1) ∧
    (∀ t : LifeState,
      (lifeAnalyze t df).1 = (lifeAnalyze (lifeAnalyze t df).2 df).1) ∧
    (∀ t t2 : LifeState, (lifeAnalyze t df).1 = (lifeAnalyze t2 df).1) := by
  refine ⟨fun s => rfl, ?_, fun t => rfl, fun t t2 => rfl⟩
  intro s s2 h
  show stressAnalyzeList s.thresholds df = stressAnalyzeList s2.thresholds df
  rw [h]

/-- Witness for C8: two stress-detector instances with the same
thresholds but different caches produce the same result list on
Scenario A. -/
theorem C8_analyze_deterministic_witness :
    (stressAnalyze
      { sensitivity := "medium", thresholds := setThresholds "medium",
        stressIndicators := [] } scenarioA).1 =
    (stressAnalyze
      { sensitivity := "medium", thresholds := setThresholds "medium",
        stressIndicators :=
          [mkFeeIndicator (setThresholds "medium") scenarioA] }
      scenarioA).1 :=
  (C8_analyze_deterministic scenarioA).2.1 _ _ rfl

/-- C9: on the empty transaction collection, every sub-detector and
both `analyze` entry points return the empty list (a value, not an
error). -/
theorem C9_empty_input (cfg : Thresholds) :
    detectLatePaymentFees cfg [] = [] ∧
    detectFrequentSmallWithdrawals cfg [] = [] ∧
    detectPaydayLoans [] = [] ∧
    detectDecliningBalance cfg [] = [] ∧
    stressAnalyzeList cfg [] = [] ∧
    detectJobChange [] = [] ∧
    detectRelocation [] = [] ∧
    detectTravel [] = [] ∧
    lifeAnalyzeList [] = [] :=
  ⟨rfl, rfl, rfl, rfl, rfl, rfl, rfl, rfl, rfl⟩

/-- C10: the small-withdrawal ceiling is $60 at every sensitivity and
the comparison `abs(amount) < threshold` is strict, so a transaction of
absolute amount exactly $60 never enters the small-withdrawal
population nor any small-withdrawal window. -/
theorem C10_ceiling_strict (sensitivity : String) (df : List Txn) (t : Txn)
    (hamt : |t.amount| = 60) :
    (setThresholds sensitivity).smallWithdrawalThreshold = 60 ∧
    t ∉ smallWithdrawalsOf (setThresholds sensitivity) df ∧
    (∀ anchor, t ∉ windowTxns (setThresholds sensitivity) df anchor) := by
  have h60 : (setThresholds sensitivity).smallWithdrawalThreshold = 60 := by
    unfold setThresholds
    split_ifs <;> rfl
  have hnot : t ∉ smallWithdrawalsOf (setThresholds sensitivity) df := by
    intro hmem
    unfold smallWithdrawalsOf at hmem
    have hp := List.of_mem_filter hmem
    simp only [h60, hamt, decide_eq_true_eq] at hp
    exact absurd hp (lt_irrefl 60)
  refine ⟨h60, hnot, ?_⟩
  intro anchor hmemw
  have h1 : t ∈ sortedSW (setThresholds sensitivity) df :=
    List.mem_of_mem_filter hmemw
  have h2 : t ∈ smallWithdrawalsOf (setThresholds sensitivity) df := by
    simpa [sortedSW, sortByDate, List.mem_insertionSort] using h1
  exact hnot h2

/-- A withdrawal of exactly $60 absolute value. -/
def sw60 : Txn :=
  { date := 0, description := "ATM withdrawal", amount := -60,
    category := "Cash", merchant := "ATM", ttype := "withdrawal" }

/-- Witness for C10: the $60 withdrawal is excluded even at high
sensitivity and never counted in any window. -/
theorem C10_ceiling_strict_witness :
    (setThresholds "high").smallWithdrawalThreshold = 60 ∧
    sw60 ∉ smallWithdrawalsOf (setThresholds "high") [sw60] ∧
    (∀ anchor, sw60 ∉ windowTxns (setThresholds "high") [sw60] anchor) :=
  C10_ceiling_strict "high" [sw60] sw60 (by decide)

end Bank
